import Mathlib

/-!
Shallow embedding of the MVE-cluster trading bot (`src/index.js`).

Numbers are modelled as exact rationals (`ℚ`).  Each scheduler tick is a
pure function from the mutable program state (`BotState`) and an
environment record carrying the outcomes of the upstream candle fetches
(`StrategyEnv` / `StopLossEnv`) to the next state.  The MongoDB
`positions` collection is modelled as a list of `Trade` records; the
conditional `findOneAndUpdate({_id, status: "OPEN"}, ...)` becomes a map
that rewrites the matching still-OPEN record (`_id` is a unique index in
MongoDB, so rewriting every matching record coincides with updating the
one matching document).
-/

/-- Result of `detectCross` (`"GOLDEN" | "DEATH" | "NONE"` in the source). -/
inductive CrossSignal where
  | GOLDEN
  | DEATH
  | NONE
deriving DecidableEq, Repr

/-- Result object of `isClustered`.  The early fail-closed return in the
source carries `gap: null` and leaves `thresholdAmount`/`gapPercent`
undefined; both are modelled as `none`. -/
structure ClusterInfo where
  clustered : Bool
  gap : Option ℚ
  thresholdAmount : Option ℚ
  gapPercent : Option ℚ
deriving DecidableEq, Repr

/-- A parsed candle as built by `fetchCandles` from a raw kline row. -/
structure Candle where
  openTime : Nat
  open_ : ℚ
  high : ℚ
  low : ℚ
  close : ℚ
  volume : ℚ
  closeTime : Nat
deriving DecidableEq, Repr

/-- A raw kline row `k` from the upstream feed; `k[0]`..`k[6]` of the
Binance response (prices are decimal strings, `Number(...)` parses them
exactly, so they are modelled as rationals directly). -/
structure RawKline where
  k0 : Nat
  k1 : ℚ
  k2 : ℚ
  k3 : ℚ
  k4 : ℚ
  k5 : ℚ
  k6 : Nat
deriving DecidableEq, Repr

/-- The `data.map(k => ...)` body of `fetchCandles`. -/
def rawToCandle (k : RawKline) : Candle :=
  { openTime := k.k0, open_ := k.k1, high := k.k2, low := k.k3,
    close := k.k4, volume := k.k5, closeTime := k.k6 }

/-- `fetchCandles`: any upstream failure (timeout, HTTP error, malformed
body — anything that throws inside the `try`) is caught and turned into
an empty array.  The fetch outcome itself is an `Except` supplied by the
environment. -/
def fetchCandles (result : Except String (List RawKline)) : List Candle :=
  match result with
  | Except.error _ => []
  | Except.ok data => data.map rawToCandle

/-- `detectCross(prevFast, prevSlow, currFast, currSlow)`. -/
def detectCross (prevFast prevSlow currFast currSlow : ℚ) : CrossSignal :=
  if prevFast < prevSlow ∧ currFast > currSlow then CrossSignal.GOLDEN
  else if prevFast > prevSlow ∧ currFast < currSlow then CrossSignal.DEATH
  else CrossSignal.NONE

/-- `isClustered(mve20, mve50, mve100, mve200, price)`.  A `none` input
models a JavaScript `null`/`undefined` argument; a `some 0` input is a
falsy number — both take the fail-closed early return
`{ clustered: false, gap: null }`. -/
def isClustered (thresholdPercent : ℚ)
    (mve20 mve50 mve100 mve200 price : Option ℚ) : ClusterInfo :=
  match mve20, mve50, mve100, mve200, price with
  | some a, some b, some c, some d, some p =>
    if a = 0 ∨ b = 0 ∨ c = 0 ∨ d = 0 ∨ p = 0 then
      { clustered := false, gap := none, thresholdAmount := none, gapPercent := none }
    else
      let maxMve := max (max (max a b) c) d
      let minMve := min (min (min a b) c) d
      let gap := maxMve - minMve
      let thresholdAmount := p * (thresholdPercent / 100)
      { clustered := decide (gap ≤ thresholdAmount),
        gap := some gap,
        thresholdAmount := some thresholdAmount,
        gapPercent := some (gap / p * 100) }
  | _, _, _, _, _ =>
      { clustered := false, gap := none, thresholdAmount := none, gapPercent := none }

/-- `SMA.calculate({period, values})` of the `technicalindicators`
library: the arithmetic mean over every trailing window of exactly
`period` samples, aligned to the tail of the input
(length `values.length - period + 1`), empty when there is not enough
data. -/
def smaCalculate (period : Nat) (values : List ℚ) : List ℚ :=
  if values.length < period ∨ period = 0 then []
  else (List.range (values.length - period + 1)).map
    (fun i => (((values.drop i).take period).sum) / (period : ℚ))

/-- The four 1-minute moving averages stored on an open trade
(`entryMVEs`). -/
structure MVESet where
  mve20 : ℚ
  mve50 : ℚ
  mve100 : ℚ
  mve200 : ℚ
deriving DecidableEq, Repr

/-- `_id` of a position record: the `"dryrun"` sentinel or a MongoDB
object id (modelled as a counter value). -/
inductive PosId where
  | dryrun
  | oid (n : Nat)
deriving DecidableEq, Repr

/-- A position document, as inserted by `openTrade` and updated by
`closeTrade`.  Times (`new Date()`) are modelled as the `now : Nat`
timestamp the environment passes to each tick. -/
structure Trade where
  id : PosId
  symbol : String
  status : String
  qty : ℚ
  positionType : String
  entryPrice : ℚ
  entryTime : Nat
  entryMVEs : MVESet
  clusterInfo : ClusterInfo
  mve200_3m_at_entry : Option ℚ
  createdAt : Nat
  updatedAt : Nat
  exitPrice : Option ℚ
  exitTime : Option Nat
  exitReason : Option String
  profitLoss : Option ℚ
deriving DecidableEq, Repr

/-- The module-level `cached` object. -/
structure CacheState where
  price : Option ℚ
  mve20 : Option ℚ
  mve50 : Option ℚ
  mve100 : Option ℚ
  mve200 : Option ℚ
  mve200_3m : Option ℚ
  clustered : Bool
  clusterGap : Option ℚ
  signal : CrossSignal
  stopLossTriggered : Bool
  lastStrategyTick : Option Nat
  lastStopLossTick : Option Nat
deriving DecidableEq, Repr

/-- The whole mutable program state: the two re-entrancy guards, the
in-memory `openPosition`, the `cached` snapshot, the persisted
`positions` collection and the id counter for fresh object ids. -/
structure BotState where
  isStrategyRunning : Bool
  isStopLossRunning : Bool
  openPosition : Option Trade
  cached : CacheState
  store : List Trade
  nextId : Nat
deriving DecidableEq, Repr

/-- Static configuration: `SYMBOL`, `CLUSTER_THRESHOLD_PERCENT`,
`DRY_RUN`. -/
structure Config where
  symbol : String
  clusterThresholdPercent : ℚ
  dryRun : Bool
deriving DecidableEq, Repr

/-- Environment of one `strategyTick`: the outcomes of the 1m and 3m
candle fetches and the current wall-clock time. -/
structure StrategyEnv where
  fetch1m : Except String (List RawKline)
  fetch3m : Except String (List RawKline)
  now : Nat
deriving Repr

/-- Environment of one `stopLossTick`: the outcomes of the 30s and 1m
candle fetches and the current wall-clock time. -/
structure StopLossEnv where
  fetch30s : Except String (List RawKline)
  fetch1m : Except String (List RawKline)
  now : Nat
deriving Repr

/-- The initial `cached` object (all nulls, lines 65–75 of the source). -/
def initCache : CacheState :=
  { price := none, mve20 := none, mve50 := none, mve100 := none,
    mve200 := none, mve200_3m := none, clustered := false,
    clusterGap := none, signal := CrossSignal.NONE,
    stopLossTriggered := false, lastStrategyTick := none,
    lastStopLossTick := none }

/-- Process start: guards clear, no open position, empty store. -/
def initState : BotState :=
  { isStrategyRunning := false, isStopLossRunning := false,
    openPosition := none, cached := initCache, store := [], nextId := 0 }

/-- The trade document built at the top of `openTrade` (lines 138–150),
before an id is assigned. -/
def newTradeDoc (cfg : Config) (now : Nat) (positionType : String)
    (price : ℚ) (mves : MVESet) (clusterInfo : ClusterInfo)
    (mve200_3m_ref : Option ℚ) : Trade :=
  { id := PosId.dryrun, symbol := cfg.symbol, status := "OPEN", qty := 1,
    positionType := positionType, entryPrice := price, entryTime := now,
    entryMVEs := mves, clusterInfo := clusterInfo,
    mve200_3m_at_entry := mve200_3m_ref, createdAt := now, updatedAt := now,
    exitPrice := none, exitTime := none, exitReason := none, profitLoss := none }

/-- The trade document as persisted by the non-dry-run branch of
`openTrade`: the built document with the inserted object id. -/
def insertedTradeDoc (cfg : Config) (now : Nat) (positionType : String)
    (price : ℚ) (mves : MVESet) (clusterInfo : ClusterInfo)
    (mve200_3m_ref : Option ℚ) (nid : Nat) : Trade :=
  { newTradeDoc cfg now positionType price mves clusterInfo mve200_3m_ref with
    id := PosId.oid nid }

/-- `openTrade({positionType, price, mves, clusterInfo, mve200_3m_ref})`:
builds the trade document; in dry-run mode it only sets the in-memory
`openPosition` with the `"dryrun"` sentinel id, otherwise it inserts the
document and sets `openPosition` to the inserted record. -/
def openTrade (cfg : Config) (now : Nat) (positionType : String) (price : ℚ)
    (mves : MVESet) (clusterInfo : ClusterInfo) (mve200_3m_ref : Option ℚ)
    (s : BotState) : BotState :=
  let base := newTradeDoc cfg now positionType price mves clusterInfo mve200_3m_ref
  if cfg.dryRun then
    { s with openPosition := some base }
  else
    let doc := insertedTradeDoc cfg now positionType price mves clusterInfo mve200_3m_ref s.nextId
    { s with store := s.store ++ [doc], openPosition := some doc, nextId := s.nextId + 1 }

/-- The PnL computed by `closeTrade` (lines 166–168):
`qty = openPosition.qty || 1` (a falsy `0` defaults to `1`), LONG pnl is
`exit − entry`, SHORT pnl is `entry − exit`, times `qty`. -/
def tradePnl (price : ℚ) (p : Trade) : ℚ :=
  (if p.positionType = "LONG" then price - p.entryPrice
   else p.entryPrice - price) * (if p.qty = 0 then 1 else p.qty)

/-- The `$set` document of the conditional update in `closeTrade`. -/
def closeFields (now : Nat) (price : ℚ) (reason : String) (pnl : ℚ)
    (r : Trade) : Trade :=
  { r with status := "CLOSED", exitPrice := some price, exitTime := some now,
           exitReason := some reason, profitLoss := some pnl, updatedAt := now }

/-- The per-document effect of
`findOneAndUpdate({_id: pid, status: "OPEN"}, {$set: ...})`: a document
is rewritten only when it matches both filter fields. -/
def condCloseOne (now : Nat) (price : ℚ) (reason : String) (pnl : ℚ)
    (pid : PosId) (r : Trade) : Trade :=
  if r.id = pid ∧ r.status = "OPEN" then closeFields now price reason pnl r
  else r

/-- `closeTrade({price, reason})`: no-op when no position is held in
memory; otherwise computes the PnL, and (outside dry-run) performs the
conditional `findOneAndUpdate({_id, status: "OPEN"}, {$set: ...})`.  The
in-memory `openPosition` is cleared in every case, whether or not the
conditional update matched. -/
def closeTrade (cfg : Config) (now : Nat) (price : ℚ) (reason : String)
    (s : BotState) : BotState :=
  match s.openPosition with
  | none => s
  | some p =>
    if cfg.dryRun then
      { s with openPosition := none }
    else
      { s with
        store := s.store.map (condCloseOne now price reason (tradePnl price p) p.id),
        openPosition := none }

/-- The values `strategyTick` derives from the fetched candles
(lines 215–253 of the source). -/
structure StrategyCalc where
  price : ℚ
  mve20 : ℚ
  mve50 : ℚ
  mve100 : ℚ
  mve200 : ℚ
  prevMve50 : ℚ
  prevMve200 : ℚ
  mve200_3m : Option ℚ
  clusterInfo : ClusterInfo
  signal : CrossSignal
deriving Repr

/-- The indicator/cluster/cross computations of `strategyTick`:
`arr[arr.length-1]` is modelled by `getLastD` and `arr[arr.length-2]` by
`getD (length - 2)`; the 3m reference MVE stays `null` when fewer than
200 3m candles were fetched. -/
def strategyCalc (cfg : Config) (candles1m candles3m : List Candle) : StrategyCalc :=
  let closes1m := candles1m.map Candle.close
  let price := closes1m.getLastD 0
  let mve20Arr := smaCalculate 20 closes1m
  let mve50Arr := smaCalculate 50 closes1m
  let mve100Arr := smaCalculate 100 closes1m
  let mve200Arr := smaCalculate 200 closes1m
  let mve20 := mve20Arr.getLastD 0
  let mve50 := mve50Arr.getLastD 0
  let mve100 := mve100Arr.getLastD 0
  let mve200 := mve200Arr.getLastD 0
  let prevMve50 := mve50Arr.getD (mve50Arr.length - 2) 0
  let prevMve200 := mve200Arr.getD (mve200Arr.length - 2) 0
  let mve200_3m : Option ℚ :=
    if 200 ≤ candles3m.length then
      let arr := smaCalculate 200 (candles3m.map Candle.close)
      if 0 < arr.length then some (arr.getLastD 0) else none
    else none
  { price := price, mve20 := mve20, mve50 := mve50, mve100 := mve100,
    mve200 := mve200, prevMve50 := prevMve50, prevMve200 := prevMve200,
    mve200_3m := mve200_3m,
    clusterInfo := isClustered cfg.clusterThresholdPercent
      (some mve20) (some mve50) (some mve100) (some mve200) (some price),
    signal := detectCross prevMve50 prevMve200 mve50 mve200 }

/-- The wholesale cache overwrite of `strategyTick` (lines 256–265):
every strategy field is replaced, the stop-loss fields are kept by the
`...cached` spread. -/
def snapshotUpdate (old : CacheState) (now : Nat) (c : StrategyCalc) : CacheState :=
  { old with
    price := some c.price, mve20 := some c.mve20, mve50 := some c.mve50,
    mve100 := some c.mve100, mve200 := some c.mve200,
    mve200_3m := c.mve200_3m, clustered := c.clusterInfo.clustered,
    clusterGap := c.clusterInfo.gap, signal := c.signal,
    lastStrategyTick := some now }

/-- The entry/exit decision block of `strategyTick` (lines 269–295):
open only when no position is held and the MVEs are clustered
(GOLDEN ⇒ LONG, DEATH ⇒ SHORT); when a position is held, close it on the
opposite crossover; otherwise leave the position alone. -/
def strategyDecide (cfg : Config) (now : Nat) (c : StrategyCalc)
    (s : BotState) : BotState :=
  match s.openPosition with
  | none =>
    if c.clusterInfo.clustered then
      if c.signal = CrossSignal.GOLDEN then
        openTrade cfg now "LONG" c.price
          ⟨c.mve20, c.mve50, c.mve100, c.mve200⟩ c.clusterInfo c.mve200_3m s
      else if c.signal = CrossSignal.DEATH then
        openTrade cfg now "SHORT" c.price
          ⟨c.mve20, c.mve50, c.mve100, c.mve200⟩ c.clusterInfo c.mve200_3m s
      else s
    else s
  | some p =>
    if (c.signal = CrossSignal.DEATH ∧ p.positionType = "LONG") ∨
       (c.signal = CrossSignal.GOLDEN ∧ p.positionType = "SHORT") then
      closeTrade cfg now c.price "OPPOSITE_CROSSOVER" s
    else s

/-- `strategyTick()`: re-entrancy guard, fetches, the two history
guards, the cache overwrite and the decision block.  The `finally`
clause restores the guard flag, so the flag is unchanged across the
call; a warning-abort path returns with nothing mutated. -/
def strategyTick (cfg : Config) (env : StrategyEnv) (s : BotState) : BotState :=
  if s.isStrategyRunning then s
  else
    let candles1m := fetchCandles env.fetch1m
    let candles3m := fetchCandles env.fetch3m
    if candles1m.length < 200 then s
    else
      let closes1m := candles1m.map Candle.close
      if (smaCalculate 50 closes1m).length < 2 ∨
         (smaCalculate 200 closes1m).length < 2 then s
      else
        let c := strategyCalc cfg candles1m candles3m
        let s1 := { s with cached := snapshotUpdate s.cached env.now c }
        strategyDecide cfg env.now c s1

/-- The final cache mutation of `stopLossTick` (lines 346–347): only the
`stopLossTriggered` flag and the stop-loss tick time are written. -/
def slCacheWrite (now : Nat) (trig : Bool) (s : BotState) : BotState :=
  { s with cached :=
      { s.cached with stopLossTriggered := trig, lastStopLossTick := some now } }

/-- `stopLossTick()`: guarded on its own flag and on a position being
held; aborts when the 30s fetch is empty or the 1m history is short;
otherwise closes a LONG strictly below / a SHORT strictly above the 1m
MVE-200 and then writes only the two stop-loss cache fields. -/
def stopLossTick (cfg : Config) (env : StopLossEnv) (s : BotState) : BotState :=
  if s.isStopLossRunning ∨ s.openPosition = none then s
  else
    let candles30s := fetchCandles env.fetch30s
    if candles30s.length = 0 then s
    else
      let currentPrice := (candles30s.map Candle.close).getLastD 0
      let candles1m := fetchCandles env.fetch1m
      if candles1m.length < 200 then s
      else
        let closes1m := candles1m.map Candle.close
        let mve200Arr := smaCalculate 200 closes1m
        let ref := mve200Arr.getLastD 0
        match s.openPosition with
        | none => s
        | some p =>
          if p.positionType = "LONG" ∧ currentPrice < ref then
            slCacheWrite env.now true
              (closeTrade cfg env.now currentPrice "STOP_LOSS_BELOW_MVE200_1M" s)
          else if p.positionType = "SHORT" ∧ currentPrice > ref then
            slCacheWrite env.now true
              (closeTrade cfg env.now currentPrice "STOP_LOSS_ABOVE_MVE200_1M" s)
          else slCacheWrite env.now false s

/-- One observable step of the system: either scheduler fires with an
arbitrary fetch environment. -/
inductive Step (cfg : Config) : BotState → BotState → Prop where
  | strategy (env : StrategyEnv) (s : BotState) : Step cfg s (strategyTick cfg env s)
  | stopLoss (env : StopLossEnv) (s : BotState) : Step cfg s (stopLossTick cfg env s)

/-- States reachable from process start by interleaving the two
schedulers. -/
def Reachable (cfg : Config) (s : BotState) : Prop :=
  Relation.ReflTransGen (Step cfg) initState s

/-- Number of OPEN records in the persisted collection. -/
def countOpen (l : List Trade) : Nat :=
  l.countP (fun r => r.status == "OPEN")

/-- Linking invariant between the in-memory `openPosition` and the
persisted collection: no OPEN record without an in-memory position, at
most one OPEN record and every OPEN record is the in-memory one; in
dry-run mode the collection is never written. -/
def StoreInv (cfg : Config) (s : BotState) : Prop :=
  countOpen s.store ≤ 1 ∧
  (s.openPosition = none → countOpen s.store = 0) ∧
  (∀ p, s.openPosition = some p →
    ∀ r ∈ s.store, r.status = "OPEN" → r.id = p.id) ∧
  (cfg.dryRun = true → s.store = [])

/-! ### Basic lemmas about the indicator computations -/

theorem smaCalculate_length (p : Nat) (vs : List ℚ) :
    (smaCalculate p vs).length =
      if vs.length < p ∨ p = 0 then 0 else vs.length - p + 1 := by
  unfold smaCalculate
  split
  · simp
  · simp

theorem smaCalculate_replicate (p n : Nat) (x : ℚ) (hp : 0 < p) (hn : p ≤ n) :
    smaCalculate p (List.replicate n x) = List.replicate (n - p + 1) x := by
  unfold smaCalculate
  rw [if_neg]
  · rw [List.eq_replicate_iff]
    constructor
    · simp
    · intro b hb
      rw [List.mem_map] at hb
      obtain ⟨i, hi, hb⟩ := hb
      rw [List.mem_range, List.length_replicate] at hi
      rw [List.drop_replicate, List.take_replicate] at hb
      have hmin : min p (n - i) = p := by omega
      have hpq : (p : ℚ) ≠ 0 := by exact_mod_cast hp.ne'
      rw [hmin, List.sum_replicate, nsmul_eq_mul,
        mul_div_cancel_left₀ x hpq] at hb
      exact hb.symm
  · rw [List.length_replicate]
    omega

theorem getLastD_replicate (n : Nat) (x d : ℚ) :
    (List.replicate (n + 1) x).getLastD d = x := by
  induction n generalizing d with
  | zero => rfl
  | succ k ih =>
    rw [List.replicate_succ, List.getLastD_cons]
    exact ih x

theorem getD_replicate (n i : Nat) (x d : ℚ) (hi : i < n) :
    (List.replicate n x).getD i d = x := by
  have hlen : i < (List.replicate n x).length := by
    rw [List.length_replicate]; exact hi
  rw [List.getD_eq_getElem _ _ hlen, List.getElem_replicate]

theorem fetchCandles_error (e : String) :
    fetchCandles (Except.error e) = [] := rfl

theorem fetchCandles_ok (data : List RawKline) :
    fetchCandles (Except.ok data) = data.map rawToCandle := rfl

/-! ### Small list-indexing helpers -/

theorem get_congr_of_eq {l l2 : List Trade} (h : l = l2) (i : Nat)
    (hi : i < l.length) :
    ∃ hi2 : i < l2.length, l2.get ⟨i, hi2⟩ = l.get ⟨i, hi⟩ := by
  subst h
  exact ⟨hi, rfl⟩

theorem get_append_stable (l : List Trade) (t : Trade) (i : Nat)
    (hi : i < l.length) :
    ∃ hi2 : i < (l ++ [t]).length, (l ++ [t]).get ⟨i, hi2⟩ = l.get ⟨i, hi⟩ := by
  refine ⟨by simp; omega, ?_⟩
  simp only [List.get_eq_getElem]
  exact List.getElem_append_left hi

theorem get_map_view (f : Trade → Trade) (l : List Trade) (i : Nat)
    (hi : i < l.length) :
    ∃ hi2 : i < (l.map f).length, (l.map f).get ⟨i, hi2⟩ = f (l.get ⟨i, hi⟩) := by
  refine ⟨by simp [hi], ?_⟩
  simp only [List.get_eq_getElem, List.getElem_map]

/-! ### Observable behaviour of `openTrade` and `closeTrade` -/

theorem openTrade_dry (cfg : Config) (now : Nat) (ty : String) (price : ℚ)
    (mves : MVESet) (ci : ClusterInfo) (ref3m : Option ℚ) (s : BotState)
    (hdry : cfg.dryRun = true) :
    openTrade cfg now ty price mves ci ref3m s =
      { s with
        openPosition := some (newTradeDoc cfg now ty price mves ci ref3m) } := by
  simp only [openTrade]
  rw [if_pos hdry]

theorem openTrade_db (cfg : Config) (now : Nat) (ty : String) (price : ℚ)
    (mves : MVESet) (ci : ClusterInfo) (ref3m : Option ℚ) (s : BotState)
    (hdry : cfg.dryRun = false) :
    openTrade cfg now ty price mves ci ref3m s =
      { s with
        store := s.store ++ [insertedTradeDoc cfg now ty price mves ci ref3m s.nextId],
        openPosition := some (insertedTradeDoc cfg now ty price mves ci ref3m s.nextId),
        nextId := s.nextId + 1 } := by
  simp only [openTrade]
  rw [if_neg (by rw [hdry]; exact Bool.false_ne_true)]

theorem openTrade_cached (cfg : Config) (now : Nat) (ty : String) (price : ℚ)
    (mves : MVESet) (ci : ClusterInfo) (ref3m : Option ℚ) (s : BotState) :
    (openTrade cfg now ty price mves ci ref3m s).cached = s.cached := by
  cases hdry : cfg.dryRun
  · rw [openTrade_db cfg now ty price mves ci ref3m s hdry]
  · rw [openTrade_dry cfg now ty price mves ci ref3m s hdry]

theorem openTrade_openPosition (cfg : Config) (now : Nat) (ty : String)
    (price : ℚ) (mves : MVESet) (ci : ClusterInfo) (ref3m : Option ℚ)
    (s : BotState) :
    ∃ t, (openTrade cfg now ty price mves ci ref3m s).openPosition = some t ∧
      t.positionType = ty ∧ t.entryPrice = price ∧ t.status = "OPEN" ∧
      t.qty = 1 ∧ t.entryMVEs = mves ∧ t.clusterInfo = ci ∧
      t.mve200_3m_at_entry = ref3m := by
  cases hdry : cfg.dryRun
  · rw [openTrade_db cfg now ty price mves ci ref3m s hdry]
    exact ⟨_, rfl, rfl, rfl, rfl, rfl, rfl, rfl, rfl⟩
  · rw [openTrade_dry cfg now ty price mves ci ref3m s hdry]
    exact ⟨_, rfl, rfl, rfl, rfl, rfl, rfl, rfl, rfl⟩

theorem openTrade_store_stable (cfg : Config) (now : Nat) (ty : String)
    (price : ℚ) (mves : MVESet) (ci : ClusterInfo) (ref3m : Option ℚ)
    (s : BotState) (i : Nat) (hi : i < s.store.length) :
    ∃ hi2 : i < (openTrade cfg now ty price mves ci ref3m s).store.length,
      (openTrade cfg now ty price mves ci ref3m s).store.get ⟨i, hi2⟩ =
        s.store.get ⟨i, hi⟩ := by
  cases hdry : cfg.dryRun
  · rw [openTrade_db cfg now ty price mves ci ref3m s hdry]
    exact get_append_stable s.store _ i hi
  · rw [openTrade_dry cfg now ty price mves ci ref3m s hdry]
    exact ⟨hi, rfl⟩

theorem closeTrade_none (cfg : Config) (now : Nat) (price : ℚ)
    (reason : String) (s : BotState) (hop : s.openPosition = none) :
    closeTrade cfg now price reason s = s := by
  unfold closeTrade
  rw [hop]

theorem closeTrade_dry (cfg : Config) (now : Nat) (price : ℚ)
    (reason : String) (s : BotState) (p : Trade)
    (hop : s.openPosition = some p) (hdry : cfg.dryRun = true) :
    closeTrade cfg now price reason s = { s with openPosition := none } := by
  unfold closeTrade
  rw [hop]
  exact if_pos hdry

theorem closeTrade_db (cfg : Config) (now : Nat) (price : ℚ)
    (reason : String) (s : BotState) (p : Trade)
    (hop : s.openPosition = some p) (hdry : cfg.dryRun = false) :
    closeTrade cfg now price reason s =
      { s with
        store := s.store.map (condCloseOne now price reason (tradePnl price p) p.id),
        openPosition := none } := by
  unfold closeTrade
  rw [hop]
  exact if_neg (by rw [hdry]; exact Bool.false_ne_true)

theorem closeTrade_cached (cfg : Config) (now : Nat) (price : ℚ)
    (reason : String) (s : BotState) :
    (closeTrade cfg now price reason s).cached = s.cached := by
  cases hop : s.openPosition with
  | none => rw [closeTrade_none cfg now price reason s hop]
  | some p =>
    cases hdry : cfg.dryRun
    · rw [closeTrade_db cfg now price reason s p hop hdry]
    · rw [closeTrade_dry cfg now price reason s p hop hdry]

theorem closeTrade_openPosition (cfg : Config) (now : Nat) (price : ℚ)
    (reason : String) (s : BotState) (p : Trade)
    (hop : s.openPosition = some p) :
    (closeTrade cfg now price reason s).openPosition = none := by
  cases hdry : cfg.dryRun
  · rw [closeTrade_db cfg now price reason s p hop hdry]
  · rw [closeTrade_dry cfg now price reason s p hop hdry]

theorem condCloseOne_hit (now : Nat) (price : ℚ) (reason : String) (pnl : ℚ)
    (pid : PosId) (r : Trade) (hid : r.id = pid) (hopen : r.status = "OPEN") :
    condCloseOne now price reason pnl pid r = closeFields now price reason pnl r := by
  unfold condCloseOne
  rw [if_pos ⟨hid, hopen⟩]

theorem condCloseOne_miss (now : Nat) (price : ℚ) (reason : String) (pnl : ℚ)
    (pid : PosId) (r : Trade) (h : r.id ≠ pid ∨ r.status ≠ "OPEN") :
    condCloseOne now price reason pnl pid r = r := by
  unfold condCloseOne
  rw [if_neg]
  rintro ⟨h1, h2⟩
  rcases h with h | h
  · exact h h1
  · exact h h2

theorem closeTrade_store_get (cfg : Config) (now : Nat) (price : ℚ)
    (reason : String) (s : BotState) (p : Trade)
    (hop : s.openPosition = some p) (hdry : cfg.dryRun = false)
    (i : Nat) (hi : i < s.store.length)
    (hid : (s.store.get ⟨i, hi⟩).id = p.id)
    (hopen : (s.store.get ⟨i, hi⟩).status = "OPEN") :
    ∃ hi2 : i < (closeTrade cfg now price reason s).store.length,
      (closeTrade cfg now price reason s).store.get ⟨i, hi2⟩ =
        closeFields now price reason (tradePnl price p) (s.store.get ⟨i, hi⟩) := by
  rw [closeTrade_db cfg now price reason s p hop hdry]
  obtain ⟨hi2, hv⟩ :=
    get_map_view (condCloseOne now price reason (tradePnl price p) p.id) s.store i hi
  refine ⟨hi2, ?_⟩
  rw [hv, condCloseOne_hit now price reason (tradePnl price p) p.id _ hid hopen]

theorem closeTrade_store_noop (cfg : Config) (now : Nat) (price : ℚ)
    (reason : String) (s : BotState) (p : Trade)
    (hop : s.openPosition = some p)
    (hclosed : ∀ r ∈ s.store, r.id = p.id → r.status ≠ "OPEN") :
    (closeTrade cfg now price reason s).store = s.store ∧
    (closeTrade cfg now price reason s).openPosition = none := by
  cases hdry : cfg.dryRun
  · rw [closeTrade_db cfg now price reason s p hop hdry]
    refine ⟨?_, rfl⟩
    show s.store.map (condCloseOne now price reason (tradePnl price p) p.id) = s.store
    have hfix : ∀ r ∈ s.store,
        condCloseOne now price reason (tradePnl price p) p.id r = id r := by
      intro r hr
      show condCloseOne now price reason (tradePnl price p) p.id r = r
      refine condCloseOne_miss now price reason (tradePnl price p) p.id r ?_
      by_cases hid : r.id = p.id
      · exact Or.inr (hclosed r hr hid)
      · exact Or.inl hid
    rw [List.map_congr_left hfix, List.map_id]
  · rw [closeTrade_dry cfg now price reason s p hop hdry]
    exact ⟨rfl, rfl⟩

theorem closeTrade_closed_stable (cfg : Config) (now : Nat) (price : ℚ)
    (reason : String) (s : BotState) (i : Nat) (hi : i < s.store.length)
    (hc : (s.store.get ⟨i, hi⟩).status ≠ "OPEN") :
    ∃ hi2 : i < (closeTrade cfg now price reason s).store.length,
      (closeTrade cfg now price reason s).store.get ⟨i, hi2⟩ =
        s.store.get ⟨i, hi⟩ := by
  cases hop : s.openPosition with
  | none => exact get_congr_of_eq (by rw [closeTrade_none cfg now price reason s hop]) i hi
  | some p =>
    cases hdry : cfg.dryRun
    · rw [closeTrade_db cfg now price reason s p hop hdry]
      obtain ⟨hi2, hv⟩ :=
        get_map_view (condCloseOne now price reason (tradePnl price p) p.id) s.store i hi
      refine ⟨hi2, ?_⟩
      rw [hv, condCloseOne_miss now price reason (tradePnl price p) p.id _ (Or.inr hc)]
    · rw [closeTrade_dry cfg now price reason s p hop hdry]
      exact ⟨hi, rfl⟩

/-! ### Guard and shape lemmas for the two ticks -/

theorem strategyTick_guarded (cfg : Config) (env : StrategyEnv) (s : BotState)
    (hrun : s.isStrategyRunning = true) :
    strategyTick cfg env s = s := by
  simp only [strategyTick]
  rw [if_pos hrun]

theorem strategyTick_short1m (cfg : Config) (env : StrategyEnv) (s : BotState)
    (hlen : (fetchCandles env.fetch1m).length < 200) :
    strategyTick cfg env s = s := by
  simp only [strategyTick]
  cases hrun : s.isStrategyRunning
  · rw [if_neg Bool.false_ne_true, if_pos hlen]
  · rw [if_pos rfl]

theorem stopLossTick_guarded (cfg : Config) (env : StopLossEnv) (s : BotState)
    (hrun : s.isStopLossRunning = true) :
    stopLossTick cfg env s = s := by
  simp only [stopLossTick]
  rw [if_pos (Or.inl hrun)]

theorem stopLossTick_noopen (cfg : Config) (env : StopLossEnv) (s : BotState)
    (hop : s.openPosition = none) :
    stopLossTick cfg env s = s := by
  simp only [stopLossTick]
  rw [if_pos (Or.inr hop)]

theorem strategyDecide_shape (cfg : Config) (now : Nat) (c : StrategyCalc)
    (s : BotState) :
    strategyDecide cfg now c s = s ∨
    (s.openPosition = none ∧ ∃ ty,
      strategyDecide cfg now c s =
        openTrade cfg now ty c.price ⟨c.mve20, c.mve50, c.mve100, c.mve200⟩
          c.clusterInfo c.mve200_3m s) ∨
    strategyDecide cfg now c s =
      closeTrade cfg now c.price "OPPOSITE_CROSSOVER" s := by
  cases hop : s.openPosition with
  | none =>
    simp only [strategyDecide, hop]
    by_cases h1 : c.clusterInfo.clustered = true
    · rw [if_pos h1]
      by_cases h2 : c.signal = CrossSignal.GOLDEN
      · rw [if_pos h2]
        exact Or.inr (Or.inl ⟨by trivial, "LONG", rfl⟩)
      · rw [if_neg h2]
        by_cases h3 : c.signal = CrossSignal.DEATH
        · rw [if_pos h3]
          exact Or.inr (Or.inl ⟨by trivial, "SHORT", rfl⟩)
        · rw [if_neg h3]
          exact Or.inl rfl
    · rw [if_neg h1]
      exact Or.inl rfl
  | some p =>
    simp only [strategyDecide, hop]
    by_cases h1 : (c.signal = CrossSignal.DEATH ∧ p.positionType = "LONG") ∨
        (c.signal = CrossSignal.GOLDEN ∧ p.positionType = "SHORT")
    · rw [if_pos h1]
      exact Or.inr (Or.inr rfl)
    · rw [if_neg h1]
      exact Or.inl rfl

theorem strategyTick_run (cfg : Config) (env : StrategyEnv) (s : BotState)
    (hrun : s.isStrategyRunning = false)
    (hlen : 201 ≤ (fetchCandles env.fetch1m).length) :
    strategyTick cfg env s =
      strategyDecide cfg env.now
        (strategyCalc cfg (fetchCandles env.fetch1m) (fetchCandles env.fetch3m))
        { s with cached :=
          (snapshotUpdate s.cached env.now
            (strategyCalc cfg (fetchCandles env.fetch1m) (fetchCandles env.fetch3m))) } := by
  simp only [strategyTick]
  rw [if_neg (by rw [hrun]; exact Bool.false_ne_true)]
  rw [if_neg (by omega : ¬(fetchCandles env.fetch1m).length < 200)]
  have h50 : ¬(smaCalculate 50 ((fetchCandles env.fetch1m).map Candle.close)).length < 2 := by
    rw [smaCalculate_length, List.length_map]
    split <;> omega
  have h200 : ¬(smaCalculate 200 ((fetchCandles env.fetch1m).map Candle.close)).length < 2 := by
    rw [smaCalculate_length, List.length_map]
    split <;> omega
  rw [if_neg (not_or.mpr ⟨h50, h200⟩)]

theorem stopLossTick_run (cfg : Config) (env : StopLossEnv) (s : BotState)
    (p : Trade) (hrun : s.isStopLossRunning = false)
    (hop : s.openPosition = some p)
    (h30 : (fetchCandles env.fetch30s).length ≠ 0)
    (h1m : 200 ≤ (fetchCandles env.fetch1m).length) :
    stopLossTick cfg env s =
      (if p.positionType = "LONG" ∧
          ((fetchCandles env.fetch30s).map Candle.close).getLastD 0 <
            (smaCalculate 200 ((fetchCandles env.fetch1m).map Candle.close)).getLastD 0 then
        slCacheWrite env.now true
          (closeTrade cfg env.now (((fetchCandles env.fetch30s).map Candle.close).getLastD 0)
            "STOP_LOSS_BELOW_MVE200_1M" s)
      else if p.positionType = "SHORT" ∧
          ((fetchCandles env.fetch30s).map Candle.close).getLastD 0 >
            (smaCalculate 200 ((fetchCandles env.fetch1m).map Candle.close)).getLastD 0 then
        slCacheWrite env.now true
          (closeTrade cfg env.now (((fetchCandles env.fetch30s).map Candle.close).getLastD 0)
            "STOP_LOSS_ABOVE_MVE200_1M" s)
      else slCacheWrite env.now false s) := by
  simp only [stopLossTick]
  rw [if_neg]
  · rw [if_neg h30]
    rw [if_neg (by omega : ¬(fetchCandles env.fetch1m).length < 200)]
    rw [hop]
  · rintro (h | h)
    · rw [hrun] at h
      exact Bool.false_ne_true h
    · rw [hop] at h
      exact Option.noConfusion h

theorem strategyTick_shape (cfg : Config) (env : StrategyEnv) (s : BotState) :
    strategyTick cfg env s = s ∨
    (∃ cc, strategyTick cfg env s = { s with cached := cc }) ∨
    (∃ cc now ty price mves ci ref3m, s.openPosition = none ∧
      strategyTick cfg env s =
        openTrade cfg now ty price mves ci ref3m { s with cached := cc }) ∨
    (∃ cc now price reason, strategyTick cfg env s =
      closeTrade cfg now price reason { s with cached := cc }) := by
  simp only [strategyTick]
  split
  · exact Or.inl rfl
  split
  · exact Or.inl rfl
  split
  · exact Or.inl rfl
  rcases strategyDecide_shape cfg env.now
      (strategyCalc cfg (fetchCandles env.fetch1m) (fetchCandles env.fetch3m))
      { s with cached :=
        (snapshotUpdate s.cached env.now
          (strategyCalc cfg (fetchCandles env.fetch1m) (fetchCandles env.fetch3m))) } with
    h | ⟨hop, ty, h⟩ | h
  · exact Or.inr (Or.inl ⟨_, h⟩)
  · exact Or.inr (Or.inr (Or.inl ⟨_, env.now, ty, _, _, _, _, hop, h⟩))
  · exact Or.inr (Or.inr (Or.inr ⟨_, env.now, _, _, h⟩))

theorem stopLossTick_shape (cfg : Config) (env : StopLossEnv) (s : BotState) :
    stopLossTick cfg env s = s ∨
    (∃ now trig, stopLossTick cfg env s = slCacheWrite now trig s) ∨
    (∃ now price reason, stopLossTick cfg env s =
      slCacheWrite now true (closeTrade cfg now price reason s)) := by
  simp only [stopLossTick]
  split
  · exact Or.inl rfl
  split
  · exact Or.inl rfl
  split
  · exact Or.inl rfl
  split
  · exact Or.inl rfl
  split
  · exact Or.inr (Or.inr ⟨env.now, _, _, rfl⟩)
  split
  · exact Or.inr (Or.inr ⟨env.now, _, _, rfl⟩)
  · exact Or.inr (Or.inl ⟨env.now, false, rfl⟩)

/-! ### Preservation of the linking invariant -/

theorem countOpen_no_open {l : List Trade} (h : countOpen l = 0) :
    ∀ r ∈ l, r.status ≠ "OPEN" := by
  intro r hr hs
  unfold countOpen at h
  rw [List.countP_eq_zero] at h
  exact h r hr (by rw [hs]; rfl)

theorem openTrade_storeInv (cfg : Config) (now : Nat) (ty : String)
    (price : ℚ) (mves : MVESet) (ci : ClusterInfo) (ref3m : Option ℚ)
    (s : BotState) (hop : s.openPosition = none) (hinv : StoreInv cfg s) :
    StoreInv cfg (openTrade cfg now ty price mves ci ref3m s) := by
  obtain ⟨h1, h2, h3, h4⟩ := hinv
  have hz := h2 hop
  have hno := countOpen_no_open hz
  cases hdry : cfg.dryRun
  · rw [openTrade_db cfg now ty price mves ci ref3m s hdry]
    refine ⟨?_, ?_, ?_, ?_⟩
    · show countOpen (s.store ++ [insertedTradeDoc cfg now ty price mves ci ref3m s.nextId]) ≤ 1
      unfold countOpen at hz ⊢
      rw [List.countP_append, hz, List.countP_cons, List.countP_nil]
      split <;> omega
    · intro hnone
      exact Option.noConfusion hnone
    · intro q hq r hr hOpen
      have hqd := Option.some.inj hq
      rcases List.mem_append.mp hr with hr1 | hr2
      · exact absurd hOpen (hno r hr1)
      · rcases List.mem_singleton.mp hr2 with rfl
        rw [← hqd]
    · intro hd
      rw [hdry] at hd
      exact absurd hd Bool.false_ne_true
  · rw [openTrade_dry cfg now ty price mves ci ref3m s hdry]
    refine ⟨h1, ?_, ?_, fun _ => h4 hdry⟩
    · intro hnone
      exact Option.noConfusion hnone
    · intro q hq r hr hOpen
      exact absurd hOpen (hno r hr)

theorem closeTrade_storeInv (cfg : Config) (now : Nat) (price : ℚ)
    (reason : String) (s : BotState) (hinv : StoreInv cfg s) :
    StoreInv cfg (closeTrade cfg now price reason s) := by
  obtain ⟨h1, h2, h3, h4⟩ := hinv
  cases hop : s.openPosition with
  | none =>
    rw [closeTrade_none cfg now price reason s hop]
    exact ⟨h1, h2, h3, h4⟩
  | some p =>
    cases hdry : cfg.dryRun
    · rw [closeTrade_db cfg now price reason s p hop hdry]
      have hz : countOpen (s.store.map
          (condCloseOne now price reason (tradePnl price p) p.id)) = 0 := by
        unfold countOpen
        rw [List.countP_eq_zero]
        intro r2 hr2 hbeq
        rw [List.mem_map] at hr2
        obtain ⟨r, hr, hr2eq⟩ := hr2
        by_cases hcond : r.id = p.id ∧ r.status = "OPEN"
        · rw [← hr2eq, condCloseOne_hit now price reason (tradePnl price p) p.id r
            hcond.1 hcond.2] at hbeq
          rw [show (closeFields now price reason (tradePnl price p) r).status =
            "CLOSED" from rfl] at hbeq
          exact absurd hbeq (by decide)
        · have hfix := condCloseOne_miss now price reason (tradePnl price p) p.id r
            (by tauto)
          · rw [← hr2eq, hfix] at hbeq
            have hOpen : r.status = "OPEN" := of_decide_eq_true hbeq
            exact hcond ⟨h3 p hop r hr hOpen, hOpen⟩
      refine ⟨le_trans (le_of_eq hz) (Nat.zero_le 1), fun _ => hz, ?_, ?_⟩
      · intro q hq
        exact Option.noConfusion hq
      · intro hd
        rw [hdry] at hd
        exact absurd hd Bool.false_ne_true
    · rw [closeTrade_dry cfg now price reason s p hop hdry]
      have hst := h4 hdry
      refine ⟨h1, ?_, ?_, fun _ => hst⟩
      · intro _
        rw [hst]
        rfl
      · intro q hq
        exact Option.noConfusion hq

theorem step_storeInv (cfg : Config) (s s2 : BotState) (hst : Step cfg s s2)
    (hinv : StoreInv cfg s) : StoreInv cfg s2 := by
  cases hst with
  | strategy env =>
    rcases strategyTick_shape cfg env s with
      h | ⟨cc, h⟩ | ⟨cc, now, ty, price, mves, ci, ref3m, hop, h⟩ |
      ⟨cc, now, price, reason, h⟩
    · rw [h]; exact hinv
    · rw [h]; exact hinv
    · rw [h]
      exact openTrade_storeInv cfg now ty price mves ci ref3m _ hop hinv
    · rw [h]
      exact closeTrade_storeInv cfg now price reason _ hinv
  | stopLoss env =>
    rcases stopLossTick_shape cfg env s with
      h | ⟨now, trig, h⟩ | ⟨now, price, reason, h⟩
    · rw [h]; exact hinv
    · rw [h]; exact hinv
    · rw [h]
      exact closeTrade_storeInv cfg now price reason s hinv

theorem initState_storeInv (cfg : Config) : StoreInv cfg initState := by
  refine ⟨?_, ?_, ?_, ?_⟩
  · exact Nat.zero_le 1
  · intro _
    rfl
  · intro q hq
    exact Option.noConfusion hq
  · intro _
    rfl

theorem reachable_storeInv (cfg : Config) (s : BotState)
    (h : Reachable cfg s) : StoreInv cfg s := by
  unfold Reachable at h
  induction h with
  | refl => exact initState_storeInv cfg
  | tail _ hbc ih => exact step_storeInv cfg _ _ hbc ih

theorem step_closed_stable (cfg : Config) (s s2 : BotState)
    (hst : Step cfg s s2) (i : Nat) (hi : i < s.store.length)
    (hc : (s.store.get ⟨i, hi⟩).status = "CLOSED") :
    ∃ hi2 : i < s2.store.length, s2.store.get ⟨i, hi2⟩ = s.store.get ⟨i, hi⟩ := by
  have hno : (s.store.get ⟨i, hi⟩).status ≠ "OPEN" := by
    rw [hc]; decide
  cases hst with
  | strategy env =>
    rcases strategyTick_shape cfg env s with
      h | ⟨cc, h⟩ | ⟨cc, now, ty, price, mves, ci, ref3m, hop, h⟩ |
      ⟨cc, now, price, reason, h⟩
    · rw [h]; exact ⟨hi, rfl⟩
    · rw [h]; exact ⟨hi, rfl⟩
    · rw [h]
      exact openTrade_store_stable cfg now ty price mves ci ref3m
        { s with cached := cc } i hi
    · rw [h]
      exact closeTrade_closed_stable cfg now price reason
        { s with cached := cc } i hi hno
  | stopLoss env =>
    rcases stopLossTick_shape cfg env s with
      h | ⟨now, trig, h⟩ | ⟨now, price, reason, h⟩
    · rw [h]; exact ⟨hi, rfl⟩
    · rw [h]; exact ⟨hi, rfl⟩
    · rw [h]
      exact closeTrade_closed_stable cfg now price reason s i hi hno

/-! ### Case lemmas for the decision block -/

theorem strategyDecide_none_golden (cfg : Config) (now : Nat) (c : StrategyCalc)
    (s : BotState) (hop : s.openPosition = none)
    (hcl : c.clusterInfo.clustered = true)
    (hsig : c.signal = CrossSignal.GOLDEN) :
    strategyDecide cfg now c s =
      openTrade cfg now "LONG" c.price ⟨c.mve20, c.mve50, c.mve100, c.mve200⟩
        c.clusterInfo c.mve200_3m s := by
  simp only [strategyDecide, hop]
  rw [if_pos hcl, if_pos hsig]

theorem strategyDecide_none_death (cfg : Config) (now : Nat) (c : StrategyCalc)
    (s : BotState) (hop : s.openPosition = none)
    (hcl : c.clusterInfo.clustered = true)
    (hsig : c.signal = CrossSignal.DEATH) :
    strategyDecide cfg now c s =
      openTrade cfg now "SHORT" c.price ⟨c.mve20, c.mve50, c.mve100, c.mve200⟩
        c.clusterInfo c.mve200_3m s := by
  simp only [strategyDecide, hop]
  rw [if_pos hcl, if_neg (by rw [hsig]; decide), if_pos hsig]

theorem strategyDecide_none_skip (cfg : Config) (now : Nat) (c : StrategyCalc)
    (s : BotState) (hop : s.openPosition = none)
    (h : c.clusterInfo.clustered = false ∨ c.signal = CrossSignal.NONE) :
    strategyDecide cfg now c s = s := by
  simp only [strategyDecide, hop]
  rcases h with h | h
  · rw [if_neg (by rw [h]; decide)]
  · by_cases hcl : c.clusterInfo.clustered = true
    · rw [if_pos hcl, if_neg (by rw [h]; decide), if_neg (by rw [h]; decide)]
    · rw [if_neg hcl]

theorem strategyDecide_some_close (cfg : Config) (now : Nat) (c : StrategyCalc)
    (s : BotState) (p : Trade) (hop : s.openPosition = some p)
    (hopp : (c.signal = CrossSignal.DEATH ∧ p.positionType = "LONG") ∨
      (c.signal = CrossSignal.GOLDEN ∧ p.positionType = "SHORT")) :
    strategyDecide cfg now c s =
      closeTrade cfg now c.price "OPPOSITE_CROSSOVER" s := by
  simp only [strategyDecide, hop]
  rw [if_pos hopp]

theorem strategyDecide_some_skip (cfg : Config) (now : Nat) (c : StrategyCalc)
    (s : BotState) (p : Trade) (hop : s.openPosition = some p)
    (hopp : ¬((c.signal = CrossSignal.DEATH ∧ p.positionType = "LONG") ∨
      (c.signal = CrossSignal.GOLDEN ∧ p.positionType = "SHORT"))) :
    strategyDecide cfg now c s = s := by
  simp only [strategyDecide, hop]
  rw [if_neg hopp]

theorem strategyDecide_cached (cfg : Config) (now : Nat) (c : StrategyCalc)
    (s : BotState) : (strategyDecide cfg now c s).cached = s.cached := by
  rcases strategyDecide_shape cfg now c s with h | ⟨hop, ty, h⟩ | h
  · rw [h]
  · rw [h, openTrade_cached]
  · rw [h, closeTrade_cached]

/-- The `StrategyCalc` a strategy tick derives from its environment. -/
def stratCalcOf (cfg : Config) (env : StrategyEnv) : StrategyCalc :=
  strategyCalc cfg (fetchCandles env.fetch1m) (fetchCandles env.fetch3m)

/-! ### Concrete objects used by witnesses and counterexamples -/

def cfg0 : Config :=
  { symbol := "BTCUSDT", clusterThresholdPercent := 1/2, dryRun := true }

def cfgDb : Config :=
  { symbol := "BTCUSDT", clusterThresholdPercent := 1/2, dryRun := false }

def envS0 : StrategyEnv :=
  { fetch1m := Except.error "timeout", fetch3m := Except.error "timeout", now := 1 }

def envL0 : StopLossEnv :=
  { fetch30s := Except.error "timeout", fetch1m := Except.error "timeout", now := 1 }

def sBusy : BotState :=
  { initState with isStrategyRunning := true, isStopLossRunning := true }

def raw100 : RawKline :=
  { k0 := 0, k1 := 100, k2 := 100, k3 := 100, k4 := 100, k5 := 1, k6 := 0 }

def envC6 : StrategyEnv :=
  { fetch1m := Except.ok (List.replicate 201 raw100),
    fetch3m := Except.ok [], now := 5 }

/-! ### Claim theorems -/

/-- Claim C8: `detectCross` returns GOLDEN exactly when the fast indicator
was strictly below the slow one and is now strictly above, DEATH in the
mirrored case, and NONE otherwise; equality on either side of the
transition yields NONE. -/
theorem detectCross_spec (pf ps cf cs : ℚ) :
    (detectCross pf ps cf cs = CrossSignal.GOLDEN ↔ (pf < ps ∧ cs < cf)) ∧
    (detectCross pf ps cf cs = CrossSignal.DEATH ↔ (ps < pf ∧ cf < cs)) ∧
    (detectCross pf ps cf cs = CrossSignal.NONE ↔
      (¬(pf < ps ∧ cs < cf) ∧ ¬(ps < pf ∧ cf < cs))) := by
  unfold detectCross
  split_ifs with h1 h2
  · exact ⟨⟨fun _ => h1, fun _ => rfl⟩,
      ⟨fun h => absurd h (by decide), fun h => absurd h.1 (lt_asymm h1.1)⟩,
      ⟨fun h => absurd h (by decide), fun h => absurd h1 h.1⟩⟩
  · exact ⟨⟨fun h => absurd h (by decide), fun h => absurd h h1⟩,
      ⟨fun _ => h2, fun _ => rfl⟩,
      ⟨fun h => absurd h (by decide), fun h => absurd h2 h.2⟩⟩
  · exact ⟨⟨fun h => absurd h (by decide), fun h => absurd h h1⟩,
      ⟨fun h => absurd h (by decide), fun h => absurd h h2⟩,
      ⟨fun _ => ⟨h1, h2⟩, fun _ => rfl⟩⟩

/-- Claim C7 counterexample: with the non-null indicator inputs
`(0, 1/10, 1/10, 1/10)` and the positive price `100`, the gap `1/10` is
within the `0.5 %` threshold amount `1/2`, yet `isClustered` reports
`clustered = false` and `gap = null`, because the JavaScript falsiness
test rejects the indicator value `0`.  This refutes the claim as stated
for arbitrary non-null inputs. -/
theorem isClustered_claim_counterexample :
    (0 : ℚ) < 100 ∧
    (max (max (max (0 : ℚ) (1/10)) (1/10)) (1/10) -
      min (min (min (0 : ℚ) (1/10)) (1/10)) (1/10) ≤ 100 * ((1/2) / 100)) ∧
    (isClustered (1/2) (some 0) (some (1/10)) (some (1/10)) (some (1/10))
      (some 100)).clustered = false ∧
    (isClustered (1/2) (some 0) (some (1/10)) (some (1/10)) (some (1/10))
      (some 100)).gap = none := by
  refine ⟨by norm_num, by norm_num, ?_, ?_⟩ <;> rfl

/-- Claim C7 (amended): for non-null and non-zero indicator values and a
positive price, `isClustered` reports `clustered = true` exactly when
`max − min ≤ price × threshold/100` (boundary inclusive), returns
`gap = max − min` and `thresholdAmount = price × threshold/100`. -/
theorem isClustered_spec (thr a b c d p : ℚ) (ha : a ≠ 0) (hb : b ≠ 0)
    (hc : c ≠ 0) (hd : d ≠ 0) (hp : 0 < p) :
    ((isClustered thr (some a) (some b) (some c) (some d) (some p)).clustered = true ↔
      max (max (max a b) c) d - min (min (min a b) c) d ≤ p * (thr / 100)) ∧
    (isClustered thr (some a) (some b) (some c) (some d) (some p)).gap =
      some (max (max (max a b) c) d - min (min (min a b) c) d) ∧
    (isClustered thr (some a) (some b) (some c) (some d) (some p)).thresholdAmount =
      some (p * (thr / 100)) := by
  simp only [isClustered]
  rw [if_neg (by push_neg; exact ⟨ha, hb, hc, hd, ne_of_gt hp⟩)]
  refine ⟨?_, rfl, rfl⟩
  exact decide_eq_true_iff

/-- Claim C7 witness: a concrete clustered instance at the boundary,
threshold `0.5 %` of price `100`, values spanning exactly the threshold
amount `1/2`. -/
theorem isClustered_spec_witness :
    ((100 : ℚ) ≠ 0 ∧ (201/2 : ℚ) ≠ 0 ∧ (100 : ℚ) ≠ 0 ∧ (100 : ℚ) ≠ 0 ∧ (0 : ℚ) < 100) ∧
    ((isClustered (1/2) (some 100) (some (201/2)) (some 100) (some 100)
        (some 100)).clustered = true ↔
      max (max (max (100 : ℚ) (201/2)) 100) 100 -
        min (min (min (100 : ℚ) (201/2)) 100) 100 ≤ 100 * ((1/2) / 100)) ∧
    (isClustered (1/2) (some 100) (some (201/2)) (some 100) (some 100)
      (some 100)).gap = some (max (max (max (100 : ℚ) (201/2)) 100) 100 -
        min (min (min (100 : ℚ) (201/2)) 100) 100) ∧
    (isClustered (1/2) (some 100) (some (201/2)) (some 100) (some 100)
      (some 100)).thresholdAmount = some (100 * ((1/2) / 100)) :=
  ⟨⟨by norm_num, by norm_num, by norm_num, by norm_num, by norm_num⟩,
    isClustered_spec (1/2) 100 (201/2) 100 100 100 (by norm_num) (by norm_num)
      (by norm_num) (by norm_num) (by norm_num)⟩

/-- Claim C5: a tick invoked while its own guard flag is set returns the
state unchanged — cache, open position and store all exactly as before. -/
theorem tick_reentrancy_spec (cfg : Config) (env1 : StrategyEnv)
    (env2 : StopLossEnv) (s : BotState) :
    (s.isStrategyRunning = true → strategyTick cfg env1 s = s) ∧
    (s.isStopLossRunning = true → stopLossTick cfg env2 s = s) :=
  ⟨fun h => strategyTick_guarded cfg env1 s h,
   fun h => stopLossTick_guarded cfg env2 s h⟩

/-- Claim C5 witness: both guard flags set on a concrete state; both
ticks leave it untouched. -/
theorem tick_reentrancy_spec_witness :
    (sBusy.isStrategyRunning = true ∧ sBusy.isStopLossRunning = true) ∧
    strategyTick cfg0 envS0 sBusy = sBusy ∧
    stopLossTick cfg0 envL0 sBusy = sBusy :=
  ⟨⟨rfl, rfl⟩, (tick_reentrancy_spec cfg0 envS0 envL0 sBusy).1 rfl,
    (tick_reentrancy_spec cfg0 envS0 envL0 sBusy).2 rfl⟩

def envErr3m : StrategyEnv :=
  { fetch1m := Except.ok (List.replicate 201 raw100),
    fetch3m := Except.error "timeout", now := 6 }

/-- Claim C10 counterexample: a failing REFERENCE (3m) fetch does not
abort the calling strategy tick.  With 201 good 1m candles and a
timed-out 3m fetch the tick proceeds and overwrites the cache (the tick
timestamp changes), so "any fetch error reaches the calling tick only as
an insufficient candle count and that tick aborts without mutating the
cache snapshot or the position" is false on the code. -/
theorem fetchCandles_claim_counterexample :
    envErr3m.fetch3m = Except.error "timeout" ∧
    strategyTick cfg0 envErr3m initState ≠ initState := by
  refine ⟨rfl, ?_⟩
  have hlen : 201 ≤ (fetchCandles envErr3m.fetch1m).length := by
    rw [show envErr3m.fetch1m = Except.ok (List.replicate 201 raw100) from rfl,
      fetchCandles_ok, List.length_map, List.length_replicate]
  have hca : (strategyTick cfg0 envErr3m initState).cached.lastStrategyTick =
      some 6 := by
    rw [strategyTick_run cfg0 envErr3m initState rfl hlen, strategyDecide_cached]
    rfl
  intro heq
  rw [heq] at hca
  exact Option.noConfusion hca

/-- Claim C10 (amended): `fetchCandles` maps any upstream failure to an
empty array; a failed PRIMARY (1m) fetch reaches the strategy tick only
as an insufficient candle count and that tick returns with the whole
state (cache, position, store) unchanged; a failed REFERENCE (3m) fetch
does not abort the tick — it proceeds with a null reference indicator
and still refreshes the cache. -/
theorem fetchCandles_total_spec :
    (∀ e, fetchCandles (Except.error e) = []) ∧
    (∀ (cfg : Config) (env : StrategyEnv) (s : BotState) e,
      env.fetch1m = Except.error e → strategyTick cfg env s = s) ∧
    (∀ (cfg : Config) (env : StrategyEnv) (s : BotState) e,
      s.isStrategyRunning = false → 201 ≤ (fetchCandles env.fetch1m).length →
      env.fetch3m = Except.error e →
      (stratCalcOf cfg env).mve200_3m = none ∧
      (strategyTick cfg env s).cached.lastStrategyTick = some env.now) := by
  refine ⟨fun e => rfl, fun cfg env s e he => ?_,
    fun cfg env s e hrun hlen he => ⟨?_, ?_⟩⟩
  · apply strategyTick_short1m
    rw [he, fetchCandles_error]
    decide
  · have h3 : ¬200 ≤ (fetchCandles env.fetch3m).length := by
      rw [he, fetchCandles_error]
      decide
    simp only [stratCalcOf, strategyCalc]
    rw [if_neg h3]
  · rw [strategyTick_run cfg env s hrun hlen, strategyDecide_cached]
    rfl

/-- Claim C10 witness: a timed-out 1m fetch yields an empty candle list
and a tick that changes nothing, while a timed-out 3m fetch (with 201
good 1m candles) leaves the reference null and still refreshes the
cache. -/
theorem fetchCandles_total_spec_witness :
    fetchCandles (Except.error "timeout") = [] ∧
    (envS0.fetch1m = Except.error "timeout" ∧
      strategyTick cfg0 envS0 initState = initState) ∧
    (initState.isStrategyRunning = false ∧
      201 ≤ (fetchCandles envErr3m.fetch1m).length ∧
      envErr3m.fetch3m = Except.error "timeout" ∧
      (stratCalcOf cfg0 envErr3m).mve200_3m = none ∧
      (strategyTick cfg0 envErr3m initState).cached.lastStrategyTick = some 6) := by
  have hlen : 201 ≤ (fetchCandles envErr3m.fetch1m).length := by
    rw [show envErr3m.fetch1m = Except.ok (List.replicate 201 raw100) from rfl,
      fetchCandles_ok, List.length_map, List.length_replicate]
  obtain ⟨hm, hc⟩ := fetchCandles_total_spec.2.2 cfg0 envErr3m initState
    "timeout" rfl hlen rfl
  exact ⟨fetchCandles_total_spec.1 "timeout",
    ⟨rfl, fetchCandles_total_spec.2.1 cfg0 envS0 initState "timeout" rfl⟩,
    rfl, hlen, rfl, hm, hc⟩

/-- Claim C6 counterexample: a tick with 201 primary (1m) candles but an
empty reference (3m) fetch — reference history far below 200 — does not
abort: it still overwrites the cache (the tick timestamp changes), so
"below the minimum for ... the configured reference interval ⇒ no state
mutated" is false on the code. -/
theorem strategyTick_reference_counterexample :
    (fetchCandles envC6.fetch3m).length < 200 ∧
    strategyTick cfg0 envC6 initState ≠ initState := by
  constructor
  · rw [show envC6.fetch3m = Except.ok ([] : List RawKline) from rfl, fetchCandles_ok]
    decide
  · have hlen : 201 ≤ (fetchCandles envC6.fetch1m).length := by
      rw [show envC6.fetch1m = Except.ok (List.replicate 201 raw100) from rfl,
        fetchCandles_ok, List.length_map, List.length_replicate]
    have hca : (strategyTick cfg0 envC6 initState).cached.lastStrategyTick = some 5 := by
      rw [strategyTick_run cfg0 envC6 initState rfl hlen, strategyDecide_cached]
      rfl
    intro heq
    rw [heq] at hca
    exact Option.noConfusion hca

/-- Claim C6 (amended): a strategy tick whose PRIMARY (1m) candle history
is below the 200-sample minimum aborts with nothing mutated; a shortfall
of the reference (3m) interval does not abort the tick — it proceeds,
with the reference indicator left null, and still refreshes the cache. -/
theorem strategyTick_insufficient_history :
    (∀ (cfg : Config) (env : StrategyEnv) (s : BotState),
      (fetchCandles env.fetch1m).length < 200 → strategyTick cfg env s = s) ∧
    (∀ (cfg : Config) (env : StrategyEnv) (s : BotState),
      s.isStrategyRunning = false → 201 ≤ (fetchCandles env.fetch1m).length →
      (fetchCandles env.fetch3m).length < 200 →
      (stratCalcOf cfg env).mve200_3m = none ∧
      (strategyTick cfg env s).cached.lastStrategyTick = some env.now) := by
  refine ⟨fun cfg env s h => strategyTick_short1m cfg env s h,
    fun cfg env s hrun hlen h3m => ⟨?_, ?_⟩⟩
  · simp only [stratCalcOf, strategyCalc]
    rw [if_neg (by omega)]
  · rw [strategyTick_run cfg env s hrun hlen, strategyDecide_cached]
    rfl

/-- Claim C6 witness: a failed 1m fetch aborts the tick unchanged, and a
201-candle 1m history with an empty 3m fetch proceeds with a null
reference and a refreshed cache timestamp. -/
theorem strategyTick_insufficient_history_witness :
    ((fetchCandles envS0.fetch1m).length < 200 ∧
      strategyTick cfg0 envS0 initState = initState) ∧
    (initState.isStrategyRunning = false ∧
      201 ≤ (fetchCandles envC6.fetch1m).length ∧
      (fetchCandles envC6.fetch3m).length < 200 ∧
      (stratCalcOf cfg0 envC6).mve200_3m = none ∧
      (strategyTick cfg0 envC6 initState).cached.lastStrategyTick = some 5) := by
  have hlen : 201 ≤ (fetchCandles envC6.fetch1m).length := by
    rw [show envC6.fetch1m = Except.ok (List.replicate 201 raw100) from rfl,
      fetchCandles_ok, List.length_map, List.length_replicate]
  have h3m : (fetchCandles envC6.fetch3m).length < 200 := by
    rw [show envC6.fetch3m = Except.ok ([] : List RawKline) from rfl, fetchCandles_ok]
    decide
  have h1 : (fetchCandles envS0.fetch1m).length < 200 := by
    rw [show envS0.fetch1m = Except.error "timeout" from rfl, fetchCandles_error]
    decide
  obtain ⟨hm, hc⟩ := strategyTick_insufficient_history.2 cfg0 envC6 initState rfl hlen h3m
  exact ⟨⟨h1, strategyTick_insufficient_history.1 cfg0 envS0 initState h1⟩,
    rfl, hlen, h3m, hm, hc⟩

/-- Claim C2: in every reachable state the persisted collection holds at
most one OPEN position, and a strategy tick never replaces an existing
in-memory position with a different one — it can only keep it or close
it (creation happens only when no position is open). -/
theorem at_most_one_open_position (cfg : Config) (s : BotState)
    (h : Reachable cfg s) :
    countOpen s.store ≤ 1 ∧
    (∀ (env : StrategyEnv) (s3 : BotState) (p : Trade),
      s3.openPosition = some p →
      (strategyTick cfg env s3).openPosition = some p ∨
      (strategyTick cfg env s3).openPosition = none) := by
  refine ⟨(reachable_storeInv cfg s h).1, ?_⟩
  intro env s3 p hop
  rcases strategyTick_shape cfg env s3 with
    h1 | ⟨cc, h1⟩ | ⟨cc, now, ty, price, mves, ci, ref3m, hop2, h1⟩ |
    ⟨cc, now, price, reason, h1⟩
  · rw [h1]
    exact Or.inl hop
  · rw [h1]
    exact Or.inl hop
  · rw [hop] at hop2
    exact Option.noConfusion hop2
  · rw [h1]
    exact Or.inr (closeTrade_openPosition cfg now price reason _ p hop)

/-- Claim C2 witness: the initial state is reachable and satisfies the
invariant. -/
theorem at_most_one_open_position_witness :
    Reachable cfg0 initState ∧
    (countOpen initState.store ≤ 1 ∧
      (∀ (env : StrategyEnv) (s3 : BotState) (p : Trade),
        s3.openPosition = some p →
        (strategyTick cfg0 env s3).openPosition = some p ∨
        (strategyTick cfg0 env s3).openPosition = none)) :=
  ⟨Relation.ReflTransGen.refl,
    at_most_one_open_position cfg0 initState Relation.ReflTransGen.refl⟩

/-- Claim C4: closing requires `status = OPEN` on the stored record — if
every record with the position's id is already CLOSED the store is left
exactly as it was (and the call completes benignly, clearing only the
in-memory handle); and no step of either scheduler ever changes a stored
CLOSED record. -/
theorem closeTrade_conditional_spec :
    (∀ (cfg : Config) (now : Nat) (price : ℚ) (reason : String)
      (s : BotState) (p : Trade), s.openPosition = some p →
      (∀ r ∈ s.store, r.id = p.id → r.status ≠ "OPEN") →
      (closeTrade cfg now price reason s).store = s.store ∧
      (closeTrade cfg now price reason s).openPosition = none) ∧
    (∀ (cfg : Config) (s s2 : BotState), Step cfg s s2 →
      ∀ i (hi : i < s.store.length), (s.store.get ⟨i, hi⟩).status = "CLOSED" →
      ∃ hi2 : i < s2.store.length, s2.store.get ⟨i, hi2⟩ = s.store.get ⟨i, hi⟩) :=
  ⟨fun cfg now price reason s p hop hcl =>
    closeTrade_store_noop cfg now price reason s p hop hcl,
   fun cfg s s2 hst i hi hc => step_closed_stable cfg s s2 hst i hi hc⟩

def cInfo0 : ClusterInfo :=
  { clustered := true, gap := some 0, thresholdAmount := some (1/2),
    gapPercent := some 0 }

def mves0 : MVESet := ⟨100, 100, 100, 100⟩

def tradeClosed : Trade :=
  { id := PosId.oid 0, symbol := "BTCUSDT", status := "CLOSED", qty := 1,
    positionType := "LONG", entryPrice := 100, entryTime := 0,
    entryMVEs := mves0, clusterInfo := cInfo0, mve200_3m_at_entry := none,
    createdAt := 0, updatedAt := 3, exitPrice := some 95, exitTime := some 3,
    exitReason := some "STOP_LOSS_BELOW_MVE200_1M", profitLoss := some (-5) }

def tradeOpenRace : Trade :=
  { tradeClosed with
    status := "OPEN", updatedAt := 0, exitPrice := none,
    exitTime := none, exitReason := none, profitLoss := none }

def sRace : BotState :=
  { initState with
    openPosition := some tradeOpenRace, store := [tradeClosed], nextId := 1 }

/-- Claim C4 witness: a stored record already CLOSED by the other
scheduler makes the close a store no-op, and a concrete scheduler step
leaves the CLOSED record byte-for-byte identical. -/
theorem closeTrade_conditional_spec_witness :
    (sRace.openPosition = some tradeOpenRace ∧
      (∀ r ∈ sRace.store, r.id = tradeOpenRace.id → r.status ≠ "OPEN") ∧
      (closeTrade cfgDb 7 95 "OPPOSITE_CROSSOVER" sRace).store = sRace.store ∧
      (closeTrade cfgDb 7 95 "OPPOSITE_CROSSOVER" sRace).openPosition = none) ∧
    (Step cfgDb sRace (strategyTick cfgDb envS0 sRace) ∧
      (sRace.store.get ⟨0, by decide⟩).status = "CLOSED" ∧
      ∃ hi2 : 0 < (strategyTick cfgDb envS0 sRace).store.length,
        (strategyTick cfgDb envS0 sRace).store.get ⟨0, hi2⟩ =
          sRace.store.get ⟨0, by decide⟩) := by
  have hclosed : ∀ r ∈ sRace.store, r.id = tradeOpenRace.id → r.status ≠ "OPEN" := by
    intro r hr _
    rcases List.mem_singleton.mp hr with rfl
    decide
  obtain ⟨h1, h2⟩ := closeTrade_conditional_spec.1 cfgDb 7 95 "OPPOSITE_CROSSOVER"
    sRace tradeOpenRace rfl hclosed
  refine ⟨⟨rfl, hclosed, h1, h2⟩, Step.strategy envS0 sRace, rfl, ?_⟩
  exact closeTrade_conditional_spec.2 cfgDb sRace (strategyTick cfgDb envS0 sRace)
    (Step.strategy envS0 sRace) 0 (by decide) rfl

/-- Claim C9: positions are opened with quantity fixed at 1, and the
profitLoss recorded on close equals `exit − entry` for a LONG and
`entry − exit` for a SHORT (times the unit quantity). -/
theorem closeTrade_pnl_spec :
    (∀ (cfg : Config) (now : Nat) (ty : String) (price : ℚ) (mves : MVESet)
      (ci : ClusterInfo) (ref3m : Option ℚ) (s : BotState),
      ∃ t, (openTrade cfg now ty price mves ci ref3m s).openPosition = some t ∧
        t.qty = 1) ∧
    (∀ (cfg : Config) (now : Nat) (price : ℚ) (reason : String) (s : BotState)
      (p : Trade), s.openPosition = some p → p.qty = 1 → cfg.dryRun = false →
      ∀ i (hi : i < s.store.length), (s.store.get ⟨i, hi⟩).id = p.id →
      (s.store.get ⟨i, hi⟩).status = "OPEN" →
      ∃ hi2 : i < (closeTrade cfg now price reason s).store.length,
        ((closeTrade cfg now price reason s).store.get ⟨i, hi2⟩).profitLoss =
          some (if p.positionType = "LONG" then price - p.entryPrice
                else p.entryPrice - price)) := by
  constructor
  · intro cfg now ty price mves ci ref3m s
    obtain ⟨t, h1, _, _, _, h5, _⟩ := openTrade_openPosition cfg now ty price mves ci ref3m s
    exact ⟨t, h1, h5⟩
  · intro cfg now price reason s p hop hqty hdry i hi hid hopen
    obtain ⟨hi2, hcf⟩ := closeTrade_store_get cfg now price reason s p hop hdry i hi hid hopen
    refine ⟨hi2, ?_⟩
    rw [hcf]
    show some (tradePnl price p) = _
    unfold tradePnl
    rw [hqty]
    norm_num

def tradeOpen100 : Trade :=
  { tradeClosed with
    status := "OPEN", updatedAt := 0, exitPrice := none,
    exitTime := none, exitReason := none, profitLoss := none }

def sOpen100 : BotState :=
  { initState with
    openPosition := some tradeOpen100, store := [tradeOpen100], nextId := 1 }

/-- Claim C9 witness: a LONG entered at 100, closed by stop-loss at 95,
records `profitLoss = −5`; the opened record carries quantity 1. -/
theorem closeTrade_pnl_spec_witness :
    (∃ t, (openTrade cfg0 1 "LONG" 100 mves0 cInfo0 none initState).openPosition =
      some t ∧ t.qty = 1) ∧
    (sOpen100.openPosition = some tradeOpen100 ∧ tradeOpen100.qty = 1 ∧
      cfgDb.dryRun = false ∧
      ∃ hi2 : 0 < (closeTrade cfgDb 9 95 "STOP_LOSS_BELOW_MVE200_1M" sOpen100).store.length,
        ((closeTrade cfgDb 9 95 "STOP_LOSS_BELOW_MVE200_1M"
          sOpen100).store.get ⟨0, hi2⟩).profitLoss = some (-5)) := by
  refine ⟨closeTrade_pnl_spec.1 cfg0 1 "LONG" 100 mves0 cInfo0 none initState,
    rfl, rfl, rfl, ?_⟩
  obtain ⟨hi2, hpl⟩ := closeTrade_pnl_spec.2 cfgDb 9 95 "STOP_LOSS_BELOW_MVE200_1M"
    sOpen100 tradeOpen100 rfl rfl rfl 0 (by norm_num [sOpen100]) rfl rfl
  refine ⟨hi2, ?_⟩
  rw [hpl, if_pos (show tradeOpen100.positionType = "LONG" from rfl)]
  norm_num [tradeOpen100, tradeClosed]

/-- Observable effect of a stop-loss tick that closed the open position
with reason `r`: the in-memory position is cleared, the triggered flag
set, and (outside dry-run) the matching OPEN record is CLOSED with that
reason at the 30s close price. -/
def SLClosed (cfg : Config) (env : StopLossEnv) (s : BotState) (p : Trade)
    (r : String) : Prop :=
  (stopLossTick cfg env s).openPosition = none ∧
  (stopLossTick cfg env s).cached.stopLossTriggered = true ∧
  (cfg.dryRun = false → ∀ i (hi : i < s.store.length),
    (s.store.get ⟨i, hi⟩).id = p.id → (s.store.get ⟨i, hi⟩).status = "OPEN" →
    ∃ hi2 : i < (stopLossTick cfg env s).store.length,
      ((stopLossTick cfg env s).store.get ⟨i, hi2⟩).status = "CLOSED" ∧
      ((stopLossTick cfg env s).store.get ⟨i, hi2⟩).exitReason = some r ∧
      ((stopLossTick cfg env s).store.get ⟨i, hi2⟩).exitPrice =
        some (((fetchCandles env.fetch30s).map Candle.close).getLastD 0))

/-- Observable effect of a stop-loss tick that did not breach: position
and store untouched, triggered flag reset. -/
def SLUnchanged (cfg : Config) (env : StopLossEnv) (s : BotState)
    (p : Trade) : Prop :=
  (stopLossTick cfg env s).openPosition = some p ∧
  (stopLossTick cfg env s).store = s.store ∧
  (stopLossTick cfg env s).cached.stopLossTriggered = false

theorem slClosed_of_eq (cfg : Config) (env : StopLossEnv) (s : BotState)
    (p : Trade) (r : String) (hop : s.openPosition = some p)
    (heq : stopLossTick cfg env s = slCacheWrite env.now true
      (closeTrade cfg env.now
        (((fetchCandles env.fetch30s).map Candle.close).getLastD 0) r s)) :
    SLClosed cfg env s p r := by
  refine ⟨?_, ?_, ?_⟩
  · rw [heq]
    exact closeTrade_openPosition cfg env.now _ r s p hop
  · rw [heq]
    rfl
  · intro hdry i hi hid hopen
    obtain ⟨hi2, hcf⟩ := closeTrade_store_get cfg env.now
      (((fetchCandles env.fetch30s).map Candle.close).getLastD 0) r s p
      hop hdry i hi hid hopen
    have hst : (closeTrade cfg env.now
        (((fetchCandles env.fetch30s).map Candle.close).getLastD 0) r s).store =
        (stopLossTick cfg env s).store := by
      rw [heq]
      rfl
    obtain ⟨hi4, hg⟩ := get_congr_of_eq hst i hi2
    refine ⟨hi4, ?_, ?_, ?_⟩ <;> rw [hg, hcf] <;> rfl

theorem slUnchanged_of_eq (cfg : Config) (env : StopLossEnv) (s : BotState)
    (p : Trade) (hop : s.openPosition = some p)
    (heq : stopLossTick cfg env s = slCacheWrite env.now false s) :
    SLUnchanged cfg env s p := by
  refine ⟨?_, ?_, ?_⟩ <;> rw [heq]
  · exact hop
  · rfl
  · rfl

/-- Claim C3: a stop-loss tick is a no-op without an open position; with
one open (and usable 30s/1m data) a LONG is closed exactly when the 30s
close is strictly below the 1m MVE-200, a SHORT exactly when strictly
above, under stop-loss-specific reasons distinct from the crossover-exit
reason. -/
theorem stopLossTick_spec :
    (∀ (cfg : Config) (env : StopLossEnv) (s : BotState),
      s.openPosition = none → stopLossTick cfg env s = s) ∧
    (∀ (cfg : Config) (env : StopLossEnv) (s : BotState) (p : Trade),
      s.isStopLossRunning = false → s.openPosition = some p →
      (fetchCandles env.fetch30s).length ≠ 0 →
      200 ≤ (fetchCandles env.fetch1m).length →
      ((p.positionType = "LONG" →
        (((fetchCandles env.fetch30s).map Candle.close).getLastD 0 <
            (smaCalculate 200 ((fetchCandles env.fetch1m).map Candle.close)).getLastD 0 →
          SLClosed cfg env s p "STOP_LOSS_BELOW_MVE200_1M") ∧
        (¬(((fetchCandles env.fetch30s).map Candle.close).getLastD 0 <
            (smaCalculate 200 ((fetchCandles env.fetch1m).map Candle.close)).getLastD 0) →
          SLUnchanged cfg env s p)) ∧
       (p.positionType = "SHORT" →
        ((smaCalculate 200 ((fetchCandles env.fetch1m).map Candle.close)).getLastD 0 <
            ((fetchCandles env.fetch30s).map Candle.close).getLastD 0 →
          SLClosed cfg env s p "STOP_LOSS_ABOVE_MVE200_1M") ∧
        (¬((smaCalculate 200 ((fetchCandles env.fetch1m).map Candle.close)).getLastD 0 <
            ((fetchCandles env.fetch30s).map Candle.close).getLastD 0) →
          SLUnchanged cfg env s p)))) ∧
    ("STOP_LOSS_BELOW_MVE200_1M" ≠ "OPPOSITE_CROSSOVER" ∧
      "STOP_LOSS_ABOVE_MVE200_1M" ≠ "OPPOSITE_CROSSOVER") := by
  refine ⟨fun cfg env s h => stopLossTick_noopen cfg env s h, ?_, by decide, by decide⟩
  intro cfg env s p hrun hop h30 h1m
  have heq := stopLossTick_run cfg env s p hrun hop h30 h1m
  constructor
  · intro hty
    constructor
    · intro hlt
      rw [if_pos ⟨hty, hlt⟩] at heq
      exact slClosed_of_eq cfg env s p "STOP_LOSS_BELOW_MVE200_1M" hop heq
    · intro hnlt
      rw [if_neg (fun hconj => hnlt hconj.2),
        if_neg (by rintro ⟨h1, -⟩; rw [hty] at h1; exact absurd h1 (by decide))] at heq
      exact slUnchanged_of_eq cfg env s p hop heq
  · intro hty
    constructor
    · intro hgt
      rw [if_neg (by rintro ⟨h1, -⟩; rw [hty] at h1; exact absurd h1 (by decide)),
        if_pos ⟨hty, hgt⟩] at heq
      exact slClosed_of_eq cfg env s p "STOP_LOSS_ABOVE_MVE200_1M" hop heq
    · intro hngt
      rw [if_neg (by rintro ⟨h1, -⟩; rw [hty] at h1; exact absurd h1 (by decide)),
        if_neg (fun hconj => hngt hconj.2)] at heq
      exact slUnchanged_of_eq cfg env s p hop heq

def raw95 : RawKline :=
  { k0 := 0, k1 := 95, k2 := 95, k3 := 95, k4 := 95, k5 := 1, k6 := 0 }

def raw98 : RawKline :=
  { k0 := 0, k1 := 98, k2 := 98, k3 := 98, k4 := 98, k5 := 1, k6 := 0 }

def envSL : StopLossEnv :=
  { fetch30s := Except.ok [raw95],
    fetch1m := Except.ok (List.replicate 200 raw98), now := 11 }

/-- Claim C3 witness: an open LONG entered at 100, a 30s close of 95
against a 1m MVE-200 of 98, triggers the stop-loss with the distinct
STOP_LOSS_BELOW reason. -/
theorem stopLossTick_spec_witness :
    (sOpen100.isStopLossRunning = false ∧
      sOpen100.openPosition = some tradeOpen100 ∧
      (fetchCandles envSL.fetch30s).length ≠ 0 ∧
      200 ≤ (fetchCandles envSL.fetch1m).length ∧
      tradeOpen100.positionType = "LONG" ∧
      ((fetchCandles envSL.fetch30s).map Candle.close).getLastD 0 <
        (smaCalculate 200 ((fetchCandles envSL.fetch1m).map Candle.close)).getLastD 0) ∧
    SLClosed cfgDb envSL sOpen100 tradeOpen100 "STOP_LOSS_BELOW_MVE200_1M" := by
  have hmap : (fetchCandles envSL.fetch1m).map Candle.close = List.replicate 200 98 := by
    rw [show envSL.fetch1m = Except.ok (List.replicate 200 raw98) from rfl,
      fetchCandles_ok, List.map_replicate, List.map_replicate]
    rfl
  have h1m : 200 ≤ (fetchCandles envSL.fetch1m).length := by
    rw [show envSL.fetch1m = Except.ok (List.replicate 200 raw98) from rfl,
      fetchCandles_ok, List.length_map, List.length_replicate]
  have h30 : (fetchCandles envSL.fetch30s).length ≠ 0 := by
    rw [show envSL.fetch30s = Except.ok [raw95] from rfl, fetchCandles_ok]
    decide
  have hcp : ((fetchCandles envSL.fetch30s).map Candle.close).getLastD 0 = 95 := rfl
  have href : (smaCalculate 200 ((fetchCandles envSL.fetch1m).map
      Candle.close)).getLastD 0 = 98 := by
    rw [hmap, smaCalculate_replicate 200 200 98 (by norm_num) (le_refl 200)]
    exact getLastD_replicate 0 98 0
  have hlt : ((fetchCandles envSL.fetch30s).map Candle.close).getLastD 0 <
      (smaCalculate 200 ((fetchCandles envSL.fetch1m).map Candle.close)).getLastD 0 := by
    rw [hcp, href]
    norm_num
  refine ⟨⟨rfl, rfl, h30, h1m, rfl, hlt⟩, ?_⟩
  exact ((stopLossTick_spec.2.1 cfgDb envSL sOpen100 tradeOpen100 rfl rfl
    h30 h1m).1 rfl).1 hlt

/-- The intermediate state of a strategy tick right after the wholesale
cache overwrite, before the decision block runs. -/
def cacheRefreshed (cfg : Config) (env : StrategyEnv) (s : BotState) : BotState :=
  { s with cached := (snapshotUpdate s.cached env.now (stratCalcOf cfg env)) }

theorem strategyTick_run2 (cfg : Config) (env : StrategyEnv) (s : BotState)
    (hrun : s.isStrategyRunning = false)
    (hlen : 201 ≤ (fetchCandles env.fetch1m).length) :
    strategyTick cfg env s =
      strategyDecide cfg env.now (stratCalcOf cfg env) (cacheRefreshed cfg env s) :=
  strategyTick_run cfg env s hrun hlen

/-- Claim C1: with sufficient history the strategy tick decision is
exactly: no open position and clustered MVEs ⇒ GOLDEN opens a LONG and
DEATH opens a SHORT at the latest fetched price (the close of the most
recent 1m candle); an open position with the opposite cross is closed
with reason OPPOSITE_CROSSOVER; otherwise the position and store are
unchanged — and in every case the cache snapshot is overwritten. -/
theorem strategyTick_decision_spec (cfg : Config) (env : StrategyEnv)
    (s : BotState) (hrun : s.isStrategyRunning = false)
    (hlen : 201 ≤ (fetchCandles env.fetch1m).length) :
    (stratCalcOf cfg env).price =
      ((fetchCandles env.fetch1m).map Candle.close).getLastD 0 ∧
    (strategyTick cfg env s).cached =
      snapshotUpdate s.cached env.now (stratCalcOf cfg env) ∧
    (s.openPosition = none → (stratCalcOf cfg env).clusterInfo.clustered = true →
      (stratCalcOf cfg env).signal = CrossSignal.GOLDEN →
      ∃ t, (strategyTick cfg env s).openPosition = some t ∧
        t.positionType = "LONG" ∧ t.entryPrice = (stratCalcOf cfg env).price ∧
        t.status = "OPEN") ∧
    (s.openPosition = none → (stratCalcOf cfg env).clusterInfo.clustered = true →
      (stratCalcOf cfg env).signal = CrossSignal.DEATH →
      ∃ t, (strategyTick cfg env s).openPosition = some t ∧
        t.positionType = "SHORT" ∧ t.entryPrice = (stratCalcOf cfg env).price ∧
        t.status = "OPEN") ∧
    (∀ p, s.openPosition = some p →
      (((stratCalcOf cfg env).signal = CrossSignal.DEATH ∧
          p.positionType = "LONG") ∨
        ((stratCalcOf cfg env).signal = CrossSignal.GOLDEN ∧
          p.positionType = "SHORT")) →
      (strategyTick cfg env s).openPosition = none ∧
      (cfg.dryRun = false → ∀ i (hi : i < s.store.length),
        (s.store.get ⟨i, hi⟩).id = p.id → (s.store.get ⟨i, hi⟩).status = "OPEN" →
        ∃ hi2 : i < (strategyTick cfg env s).store.length,
          ((strategyTick cfg env s).store.get ⟨i, hi2⟩).status = "CLOSED" ∧
          ((strategyTick cfg env s).store.get ⟨i, hi2⟩).exitReason =
            some "OPPOSITE_CROSSOVER" ∧
          ((strategyTick cfg env s).store.get ⟨i, hi2⟩).exitPrice =
            some (stratCalcOf cfg env).price)) ∧
    (s.openPosition = none →
      ((stratCalcOf cfg env).clusterInfo.clustered = false ∨
        (stratCalcOf cfg env).signal = CrossSignal.NONE) →
      (strategyTick cfg env s).openPosition = none ∧
      (strategyTick cfg env s).store = s.store) ∧
    (∀ p, s.openPosition = some p →
      ¬(((stratCalcOf cfg env).signal = CrossSignal.DEATH ∧
          p.positionType = "LONG") ∨
        ((stratCalcOf cfg env).signal = CrossSignal.GOLDEN ∧
          p.positionType = "SHORT")) →
      (strategyTick cfg env s).openPosition = some p ∧
      (strategyTick cfg env s).store = s.store) := by
  have heq := strategyTick_run2 cfg env s hrun hlen
  refine ⟨rfl, ?_, ?_, ?_, ?_, ?_, ?_⟩
  · rw [heq, strategyDecide_cached]
    rfl
  · intro hop hcl hsig
    have hd := strategyDecide_none_golden cfg env.now (stratCalcOf cfg env)
      (cacheRefreshed cfg env s) hop hcl hsig
    rw [heq, hd]
    obtain ⟨t, h1, h2, h3, h4, -, -, -⟩ := openTrade_openPosition cfg env.now
      "LONG" (stratCalcOf cfg env).price
      ⟨(stratCalcOf cfg env).mve20, (stratCalcOf cfg env).mve50,
        (stratCalcOf cfg env).mve100, (stratCalcOf cfg env).mve200⟩
      (stratCalcOf cfg env).clusterInfo (stratCalcOf cfg env).mve200_3m
      (cacheRefreshed cfg env s)
    exact ⟨t, h1, h2, h3, h4⟩
  · intro hop hcl hsig
    have hd := strategyDecide_none_death cfg env.now (stratCalcOf cfg env)
      (cacheRefreshed cfg env s) hop hcl hsig
    rw [heq, hd]
    obtain ⟨t, h1, h2, h3, h4, -, -, -⟩ := openTrade_openPosition cfg env.now
      "SHORT" (stratCalcOf cfg env).price
      ⟨(stratCalcOf cfg env).mve20, (stratCalcOf cfg env).mve50,
        (stratCalcOf cfg env).mve100, (stratCalcOf cfg env).mve200⟩
      (stratCalcOf cfg env).clusterInfo (stratCalcOf cfg env).mve200_3m
      (cacheRefreshed cfg env s)
    exact ⟨t, h1, h2, h3, h4⟩
  · intro p hop hopp
    have hd := strategyDecide_some_close cfg env.now (stratCalcOf cfg env)
      (cacheRefreshed cfg env s) p hop hopp
    constructor
    · rw [heq, hd]
      exact closeTrade_openPosition cfg env.now (stratCalcOf cfg env).price
        "OPPOSITE_CROSSOVER" (cacheRefreshed cfg env s) p hop
    · intro hdry i hi hid hopen
      obtain ⟨hi2, hcf⟩ := closeTrade_store_get cfg env.now
        (stratCalcOf cfg env).price "OPPOSITE_CROSSOVER"
        (cacheRefreshed cfg env s) p hop hdry i hi hid hopen
      have hst : (closeTrade cfg env.now (stratCalcOf cfg env).price
          "OPPOSITE_CROSSOVER" (cacheRefreshed cfg env s)).store =
          (strategyTick cfg env s).store := by
        rw [heq, hd]
      obtain ⟨hi4, hg⟩ := get_congr_of_eq hst i hi2
      refine ⟨hi4, ?_, ?_, ?_⟩ <;> rw [hg, hcf] <;> rfl
  · intro hop h
    have hd := strategyDecide_none_skip cfg env.now (stratCalcOf cfg env)
      (cacheRefreshed cfg env s) hop h
    rw [heq, hd]
    exact ⟨hop, rfl⟩
  · intro p hop hopp
    have hd := strategyDecide_some_skip cfg env.now (stratCalcOf cfg env)
      (cacheRefreshed cfg env s) p hop hopp
    rw [heq, hd]
    exact ⟨hop, rfl⟩

/-- Claim C1 witness: a concrete tick (201 one-minute candles) passes
the history guards and overwrites the cache with the freshly computed
snapshot. -/
theorem strategyTick_decision_spec_witness :
    initState.isStrategyRunning = false ∧
    201 ≤ (fetchCandles envC6.fetch1m).length ∧
    (strategyTick cfg0 envC6 initState).cached =
      snapshotUpdate initState.cached 5 (stratCalcOf cfg0 envC6) := by
  have hlen : 201 ≤ (fetchCandles envC6.fetch1m).length := by
    rw [show envC6.fetch1m = Except.ok (List.replicate 201 raw100) from rfl,
      fetchCandles_ok, List.length_map, List.length_replicate]
  exact ⟨rfl, hlen,
    (strategyTick_decision_spec cfg0 envC6 initState rfl hlen).2.1⟩
